import Mathlib

/-!
Shallow embedding of the `sensors` MakeCode library
(src/sensors.ts and src/jacdacSensorMap.ts).

Modelling conventions:
* Numeric sensor readings, calibration bounds and comparators are `ℚ`
  (the TypeScript code uses `number`; none of the verified paths depend
  on float rounding).
* Logical times and measurement counts are `Int`; a TypeScript field that
  may be `undefined` is an `Option`.
* The opaque sampling capability (`sensorFn` / `this.reading`) is passed to
  each operation as an explicit argument: one call consumes one sample;
  `none` models an absent reading from a disconnected Jacdac sensor.
* The datalogger sink is modelled as the list of records a call emits,
  each record being the list of (column, value) pairs passed to
  `datalogger.log`.
* A JavaScript runtime failure (property access on `undefined`, calling a
  non-function) is an `Except.error`; note that in the source, side effects
  performed before the failing expression have already happened, which the
  model preserves (see `Sensor.log`).
-/

/-- Rendering of a numeric value as in JavaScript `Number.prototype.toString`.
On integral values (the only ones the verified paths render) this agrees
exactly with JavaScript. -/
def jsNumToString (q : ℚ) : String :=
  if q.den = 1 then toString q.num else toString q

/-- Rendering of an integral time value, as `time.toString()` in the source. -/
def jsIntToString (t : Int) : String := toString t

/-- Rendering of a possibly-undefined numeric config field when concatenated
into a string (JavaScript renders `undefined` as "undefined"). -/
def jsOptNumToString : Option ℚ → String
  | some q => jsNumToString q
  | none => "undefined"

/-- READING_PRECISION from src/sensors.ts line 48: to what precision are
readings truncated when logged. -/
def READING_PRECISION : Nat := 8

/-- RecordingConfig from src/sensors.ts: measurements and period may be
`undefined` (see `eventOnlyRecordingConfig`). -/
structure RecordingConfig where
  measurements : Option Int
  period : Option Int
  inequality : Option String
  comparator : Option ℚ
deriving Repr, DecidableEq

/-- Factory `recordingConfig` from src/sensors.ts lines 65-67. -/
def recordingConfig (measurements : Int) (period : Int)
    (inequality : Option String) (comparator : Option ℚ) : RecordingConfig :=
  ⟨some measurements, some period, inequality, comparator⟩

/-- Factory `eventOnlyRecordingConfig` from src/sensors.ts lines 76-78:
measurements and period are set to `undefined`. -/
def eventOnlyRecordingConfig (inequality : String) (comparator : ℚ) :
    RecordingConfig :=
  ⟨none, none, some inequality, some comparator⟩

/-- sensorEventFunctionLookup from src/sensors.ts lines 39-45: maps an
inequality symbol to its predicate; lookup of any other key yields
`undefined`, modelled as `none`. -/
def sensorEventFunctionLookup (inequality : String) :
    Option (ℚ → ℚ → Bool) :=
  if inequality = "=" then some (fun reading comparator => decide (reading = comparator))
  else if inequality = ">" then some (fun reading comparator => decide (comparator < reading))
  else if inequality = "<" then some (fun reading comparator => decide (reading < comparator))
  else if inequality = ">=" then some (fun reading comparator => decide (comparator ≤ reading))
  else if inequality = "<=" then some (fun reading comparator => decide (reading ≤ comparator))
  else none

/-- Mutable/observable state of class `Sensor` (src/sensors.ts lines 296-663).
Fields that exist in the class but play no role in any verified claim
(unit names, reading error, the Jacdac flag) are omitted; `config` is
`none` until `setConfig` is called. -/
structure Sensor where
  name : String
  radioName : String
  minimum : ℚ
  maximum : ℚ
  range : ℚ
  maxBufferSize : Nat
  totalMeasurements : Option Int
  numberOfReadings : Nat
  isInEventMode : Bool
  config : Option RecordingConfig
  lastLoggedReading : ℚ
  dataBuffer : List ℚ
  normalisedDataBuffer : List ℚ
deriving Repr, DecidableEq

/-- Sensor constructor (src/sensors.ts lines 361-397): empty buffers,
default capacity 80, not in event mode, no config;
`range = maximum - minimum`. -/
def mkSensor (name rName : String) (min max : ℚ) : Sensor :=
  { name := name
    radioName := rName
    minimum := min
    maximum := max
    range := max - min
    maxBufferSize := 80
    totalMeasurements := some 0
    numberOfReadings := 0
    isInEventMode := false
    config := none
    lastLoggedReading := 0
    dataBuffer := []
    normalisedDataBuffer := [] }

/-- Sensor.setConfig (src/sensors.ts lines 588-593). -/
def Sensor.setConfig (s : Sensor) (config : RecordingConfig) : Sensor :=
  { s with
    config := some config
    totalMeasurements := config.measurements
    isInEventMode := config.comparator.isSome && config.inequality.isSome }

/-- JavaScript comparison `m > 0` where `m` may be `undefined`
(`undefined > 0` is false). -/
def measGtZero : Option Int → Bool
  | none => false
  | some m => decide (0 < m)

/-- JavaScript decrement `m -= 1` where `m` may be `undefined`
(`undefined - 1` is NaN, which stays non-positive under `> 0`). -/
def decMeas : Option Int → Option Int
  | none => none
  | some m => some (m - 1)

/-- Sensor.hasMeasurements (src/sensors.ts line 484):
`this.config.measurements > 0`; accessing `measurements` of an undefined
config is a runtime error. -/
def Sensor.hasMeasurementsE (s : Sensor) : Except String Bool :=
  match s.config with
  | none => .error "TypeError: config is undefined"
  | some c => .ok (measGtZero c.measurements)

/-- Getter `period` (src/sensors.ts line 461): `this.config.period`.
An undefined period is modelled as 0 (the value is never used on that
path in the verified claims). -/
def Sensor.periodv (s : Sensor) : Int :=
  match s.config with
  | none => 0
  | some c => c.period.getD 0

/-- Sensor.setBufferSize (src/sensors.ts lines 533-541): when the buffer
is longer than the new size, splice the difference off the front of both
buffers; always update the capacity. -/
def Sensor.setBufferSize (s : Sensor) (newBufferSize : Nat) : Sensor :=
  let s' :=
    if s.dataBuffer.length > newBufferSize then
      let difference := s.dataBuffer.length - newBufferSize
      { s with
        dataBuffer := s.dataBuffer.drop difference
        normalisedDataBuffer := s.normalisedDataBuffer.drop difference }
    else s
  { s' with maxBufferSize := newBufferSize }

/-- Sensor.readIntoBufferOnce (src/sensors.ts lines 551-566): `reading` is
the sampled value (`none` = undefined). Returns the updated sensor and the
returned buffer length. `Array.shift` on an empty array is a no-op, hence
`List.tail`. -/
def Sensor.readIntoBufferOnce (s : Sensor) (reading : Option ℚ) :
    Sensor × Nat :=
  let s1 :=
    if s.dataBuffer.length ≥ s.maxBufferSize ∨ reading = none then
      { s with
        dataBuffer := s.dataBuffer.tail
        normalisedDataBuffer := s.normalisedDataBuffer.tail }
    else s
  match reading with
  | none => (s1, s1.dataBuffer.length)
  | some r =>
    let s2 :=
      { s1 with
        numberOfReadings := s1.numberOfReadings + 1
        dataBuffer := s1.dataBuffer ++ [r]
        normalisedDataBuffer :=
          s1.normalisedDataBuffer ++ [(r - s.minimum) / s.range] }
    (s2, s2.dataBuffer.length)

/-- Sensor.normaliseDataBuffer (src/sensors.ts lines 574-582): note the
source recomputes the range as `Math.abs(min) + this.maximum`, not as
`this.range` (= maximum - minimum). -/
def Sensor.normaliseDataBuffer (s : Sensor) : Sensor :=
  let min := s.minimum
  let range : ℚ := abs min + s.maximum
  { s with
    normalisedDataBuffer := s.dataBuffer.map (fun x => (x - min) / range) }

/-- One record passed to `datalogger.log`: a list of (column, value) pairs. -/
abbrev SinkRecord := List (String × String)

deriving instance DecidableEq for Except

/-- Result of a `Sensor.log` call: the records emitted to the datalogger
sink (emitted even if the call subsequently fails), and either a runtime
error or the updated sensor together with the returned CSV string. -/
structure LogResult where
  sink : List SinkRecord
  out : Except String (Sensor × String)
deriving Repr, DecidableEq

/-- The effective time used by Sensor.log: `if (!time) time = control.millis()`.
JavaScript `!time` is true both for `undefined` and for `0`, so a passed
time of 0 is replaced by the wall clock. -/
def jsOptTime (time : Option Int) (millis : Int) : Int :=
  match time with
  | none => millis
  | some v => if v = 0 then millis else v

/-- Sensor.log (src/sensors.ts lines 604-636). `sample` is the value the
sampling capability yields for this call; `millis` is `control.millis()`.
In event mode the predicate is looked up in `sensorEventFunctionLookup`;
in the non-event branch the datalogger record is emitted before
`this.config.measurements -= 1`, so an unconfigured sensor still emits
one sink record before the runtime failure. -/
def Sensor.log (s : Sensor) (sample : ℚ) (time : Option Int) (millis : Int) :
    LogResult :=
  let t := jsOptTime time millis
  let s0 := { s with lastLoggedReading := sample }
  let readingStr := (jsNumToString sample).take READING_PRECISION
  if s0.isInEventMode then
    match s0.config with
    | none => ⟨[], .error "TypeError: config is undefined"⟩
    | some cfg =>
      match sensorEventFunctionLookup (cfg.inequality.getD "undefined") with
      | none => ⟨[], .error "TypeError: lookup result is not a function"⟩
      | some f =>
        if f sample (cfg.comparator.getD 0) then
          let eventStr :=
            cfg.inequality.getD "undefined" ++ " " ++ jsOptNumToString cfg.comparator
          let sinkRec : SinkRecord :=
            [("Sensor", s0.name), ("Time (ms)", jsIntToString t),
             ("Reading", readingStr), ("Event", eventStr)]
          let s1 := { s0 with
            config := some { cfg with measurements := decMeas cfg.measurements } }
          ⟨[sinkRec],
           .ok (s1, s0.radioName ++ "," ++ jsIntToString t ++ "," ++ readingStr
                  ++ "," ++ eventStr)⟩
        else
          ⟨[], .ok (s0, "")⟩
  else
    let sinkRec : SinkRecord :=
      [("Sensor", s0.name), ("Time (ms)", jsIntToString t),
       ("Reading", readingStr), ("Event", "N/A")]
    match s0.config with
    | none => ⟨[sinkRec], .error "TypeError: config is undefined"⟩
    | some cfg =>
      let s1 := { s0 with
        config := some { cfg with measurements := decMeas cfg.measurements } }
      ⟨[sinkRec],
       .ok (s1, s0.radioName ++ "," ++ jsIntToString t ++ "," ++ readingStr
              ++ "," ++ "N/A")⟩

/-- One schedule entry of SensorScheduler (src/jacdacSensorMap.ts line 505):
a sensor and its wake time. -/
structure SchedEntry where
  sensor : Sensor
  waitTime : Int
deriving Repr, DecidableEq

/-- One trace event of a scheduler run: the radio name of the logged
sensor, the logical time the scheduler passed to `log`, and the CSV string
`log` returned (forwarded to the callback object when present). -/
structure LogEvent where
  rName : String
  time : Int
  csv : String
deriving Repr, DecidableEq

/-- Stable insertion of an element into a list sorted ascending by `key`:
the element is placed after every existing element with a key less than or
equal to its own. -/
def insertByKey {α : Type} (key : α → Int) (x : α) : List α → List α
  | [] => [x]
  | y :: ys => if key x < key y then x :: y :: ys else y :: insertByKey key x ys

/-- Stable sort ascending by `key`, modelling JavaScript
`Array.sort((a, b) => key(a) - key(b))` (stable per the ES spec). -/
def sortByKey {α : Type} (key : α → Int) (l : List α) : List α :=
  l.foldl (fun acc x => insertByKey key x acc) []

/-- SensorScheduler state: only the schedule is relevant to the claims
(the LED-display bookkeeping and the cancellation flag are omitted;
cancellation is never requested in the verified scenarios). -/
structure SensorScheduler where
  schedule : List SchedEntry
deriving Repr, DecidableEq

/-- SensorScheduler constructor (src/jacdacSensorMap.ts lines 519-543):
sorts the sensors ascending by period and maps each to an entry with
`waitTime = period`. -/
def mkScheduler (sensors : List Sensor) : SensorScheduler :=
  let sorted := sortByKey (fun s => s.periodv) sensors
  ⟨sorted.map (fun s => ⟨s, s.periodv⟩)⟩

/-- SensorScheduler.loggingComplete (src/jacdacSensorMap.ts line 549):
`!(this.schedule.length > 0)`. -/
def SensorScheduler.loggingComplete (sc : SensorScheduler) : Bool :=
  !(decide (sc.schedule.length > 0))

/-- The time-0 logging pass of SensorScheduler.start (src/jacdacSensorMap.ts
lines 577-591): an index-based `for` loop over the schedule that logs each
visited entry with `log(0)` and splices out an entry whose sensor has no
measurements left. Splicing at index `i` without adjusting `i` makes the
loop skip the element that shifts into position `i`; the skipped element
stays in the schedule unvisited, which the `done ++ [skip]` branch models.
`r` is the sample every log call yields; `millis` is the wall clock. -/
def initialPassAux (r : ℚ) (millis : Int) :
    List SchedEntry → List SchedEntry → List LogEvent →
    Except String (List SchedEntry × List LogEvent)
  | done, [], trace => .ok (done, trace)
  | done, e :: rest, trace =>
    let lr := e.sensor.log r (some 0) millis
    match lr.out with
    | .error msg => .error msg
    | .ok (s', csv) =>
      let trace' := trace ++ [⟨e.sensor.radioName, 0, csv⟩]
      match s'.hasMeasurementsE with
      | .error msg => .error msg
      | .ok has =>
        if has then
          initialPassAux r millis (done ++ [⟨s', e.waitTime⟩]) rest trace'
        else
          match rest with
          | [] => .ok (done, trace')
          | skip :: rest' => initialPassAux r millis (done ++ [skip]) rest' trace'

/-- One pass of the inner `for` loop of SensorScheduler.start
(src/jacdacSensorMap.ts lines 619-642) at logical time `ct`: an exhausted
sensor is spliced out (again skipping the element that shifts into its
index); otherwise, when `ct` is an exact multiple of the entry's wait time
the sensor is logged and, if it still has measurements, its wake time is
advanced to `nextLogTime + period`. JavaScript `ct % 0` is NaN and never
equals 0, hence the explicit non-zero guard. -/
def innerPassAux (r : ℚ) (millis ct nextLogTime : Int) :
    List SchedEntry → List SchedEntry → List LogEvent →
    Except String (List SchedEntry × List LogEvent)
  | done, [], trace => .ok (done, trace)
  | done, e :: rest, trace =>
    match e.sensor.hasMeasurementsE with
    | .error msg => .error msg
    | .ok has =>
      if !has then
        match rest with
        | [] => .ok (done, trace)
        | skip :: rest' =>
          innerPassAux r millis ct nextLogTime (done ++ [skip]) rest' trace
      else if e.waitTime ≠ 0 ∧ ct % e.waitTime = 0 then
        let lr := e.sensor.log r (some ct) millis
        match lr.out with
        | .error msg => .error msg
        | .ok (s', csv) =>
          let trace' := trace ++ [⟨e.sensor.radioName, ct, csv⟩]
          match s'.hasMeasurementsE with
          | .error msg => .error msg
          | .ok has' =>
            let wt := if has' then nextLogTime + s'.periodv else e.waitTime
            innerPassAux r millis ct nextLogTime (done ++ [⟨s', wt⟩]) rest trace'
      else
        innerPassAux r millis ct nextLogTime (done ++ [e]) rest trace

/-- State of a scheduler run between iterations of the `while` loop of
SensorScheduler.start: the schedule, the scheduler's logical clock
`currentTime`, and the trace of log calls made so far. -/
structure SchedSimState where
  schedule : List SchedEntry
  currentTime : Int
  trace : List LogEvent
deriving Repr, DecidableEq

/-- The `while (this.schedule.length > 0)` loop of SensorScheduler.start
(src/jacdacSensorMap.ts lines 596-650), with the wall-clock pauses and
operation-time compensation elided (they do not affect which sensors are
logged at which logical times): take the earliest wake time, advance the
logical clock by `sleepTime`, run the inner pass, then re-sort the
schedule ascending by wake time. `fuel` bounds the number of iterations. -/
def schedLoopAux (r : ℚ) (millis : Int) :
    Nat → List SchedEntry → Int → List LogEvent → Except String SchedSimState
  | 0, sched, ct, trace => .ok ⟨sched, ct, trace⟩
  | fuel + 1, sched, ct, trace =>
    match sched with
    | [] => .ok ⟨[], ct, trace⟩
    | e0 :: _ =>
      let nextLogTime := e0.waitTime
      let sleepTime := nextLogTime - ct
      let ct' := ct + sleepTime
      match innerPassAux r millis ct' nextLogTime [] sched trace with
      | .error msg => .error msg
      | .ok (sched', trace') =>
        schedLoopAux r millis fuel
          (sortByKey (fun e => e.waitTime) sched') ct' trace'

/-- SensorScheduler.start (src/jacdacSensorMap.ts lines 570-667) run to at
most `fuel` iterations of its multiplexed loop: the time-0 pass followed
by the while loop; `currentTime` starts at 0. -/
def startSim (r : ℚ) (millis : Int) (fuel : Nat) (sc : SensorScheduler) :
    Except String SchedSimState :=
  match initialPassAux r millis [] sc.schedule [] with
  | .error msg => .error msg
  | .ok (sched0, trace0) => schedLoopAux r millis fuel sched0 0 trace0

/-- Scenario sensor A of the scheduler round-trip claim: periodic,
period 1000 ms, 3 measurements. -/
def sensorA : Sensor :=
  (mkSensor "Sensor A" "A" 0 100).setConfig (recordingConfig 3 1000 none none)

/-- Scenario sensor B of the scheduler round-trip claim: periodic,
period 2000 ms, 2 measurements. -/
def sensorB : Sensor :=
  (mkSensor "Sensor B" "B" 0 100).setConfig (recordingConfig 2 2000 none none)

/-- Scheduler over the two round-trip scenario sensors. -/
def roundTripScheduler : SensorScheduler := mkScheduler [sensorA, sensorB]

/-- The round-trip scenario run for a given loop fuel (sample 1,
wall clock 999 at the time-0 pass). -/
def roundTripRun (fuel : Nat) : Except String SchedSimState :=
  startSim 1 999 fuel roundTripScheduler

/-- Round-trip scenario: config of sensor A with `m` measurements left. -/
def cfgA (m : Int) : RecordingConfig := ⟨some m, some 1000, none, none⟩

/-- Round-trip scenario: config of sensor B with `m` measurements left. -/
def cfgB (m : Int) : RecordingConfig := ⟨some m, some 2000, none, none⟩

/-- Round-trip scenario: sensor A after it has been logged, with `m`
measurements left. -/
def sensorAat (m : Int) : Sensor :=
  { sensorA with lastLoggedReading := 1, config := some (cfgA m) }

/-- Round-trip scenario: sensor B after it has been logged, with `m`
measurements left. -/
def sensorBat (m : Int) : Sensor :=
  { sensorB with lastLoggedReading := 1, config := some (cfgB m) }

/-- Round-trip schedule after the time-0 pass: A has 2 measurements left
and wakes at 1000, B has 1 left and wakes at 2000. -/
def rtSched1 : List SchedEntry := [⟨sensorAat 2, 1000⟩, ⟨sensorBat 1, 2000⟩]

/-- Round-trip trace after the time-0 pass: both sensors logged once at
logical time 0 (the CSV timestamps read 999 because `log(0)` substitutes
the wall clock for a zero time argument). -/
def rtTrace1 : List LogEvent :=
  [⟨"A", 0, "A,999,1,N/A"⟩, ⟨"B", 0, "B,999,1,N/A"⟩]

/-- Round-trip schedule after the loop iteration at logical time 1000:
both sensors next wake at 2000. -/
def rtSched2 : List SchedEntry := [⟨sensorAat 1, 2000⟩, ⟨sensorBat 1, 2000⟩]

/-- Round-trip trace after the iteration at logical time 1000. -/
def rtTrace2 : List LogEvent := rtTrace1 ++ [⟨"A", 1000, "A,1000,1,N/A"⟩]

/-- Round-trip schedule after the iteration at logical time 2000: both
sensors are exhausted but still scheduled (their entries are only spliced
out on a later iteration). -/
def rtSched3 : List SchedEntry := [⟨sensorAat 0, 2000⟩, ⟨sensorBat 0, 2000⟩]

/-- Full round-trip trace: A logged at logical times 0, 1000, 2000 and B
at 0, 2000. -/
def rtTrace3 : List LogEvent :=
  rtTrace2 ++ [⟨"A", 2000, "A,2000,1,N/A"⟩, ⟨"B", 2000, "B,2000,1,N/A"⟩]

/-- Round-trip schedule after the third loop iteration: A's entry has been
spliced out, which shifts B's entry into the vacated index so that this
iteration does not examine B again. -/
def rtSched4 : List SchedEntry := [⟨sensorBat 0, 2000⟩]

/-- Event-mode scenario sensor: inequality ">", comparator 10,
1 measurement (the claimed two-call scenario). -/
def eventSensorC2 : Sensor :=
  (mkSensor "Light" "L" 0 255).setConfig
    (recordingConfig 1 1000 (some ">") (some 10))

/-- Event-mode scenario sensor after the first `log` call (sample 5, below
the comparator): only `lastLoggedReading` changed. -/
def eventSensorC2a : Sensor := { eventSensorC2 with lastLoggedReading := 5 }

/-- One buffer operation of the buffer-length invariant claim. -/
inductive BufferOp where
  | read (sample : Option ℚ)
  | resize (n : Nat)
  | renormalise
deriving Repr, DecidableEq

/-- Apply one buffer operation to a sensor. -/
def applyBufferOp (s : Sensor) : BufferOp → Sensor
  | .read sample => (s.readIntoBufferOnce sample).1
  | .resize n => s.setBufferSize n
  | .renormalise => s.normaliseDataBuffer

/-- Apply a sequence of buffer operations to a sensor, oldest first. -/
def applyBufferOps (s : Sensor) (ops : List BufferOp) : Sensor :=
  ops.foldl applyBufferOp s

/-- Witness sensor with two buffered readings and capacity 2 (at capacity). -/
def bufferedSensor : Sensor :=
  { mkSensor "Light" "L" 0 255 with
    dataBuffer := [1, 2], normalisedDataBuffer := [0, 0], maxBufferSize := 2 }

/-- Counterexample sensor for the capacity bound: capacity shrunk to 0. -/
def zeroCapSensor : Sensor := (mkSensor "Light" "L" 0 255).setBufferSize 0

/-- Sensor with the calibration bounds of the JacdacWaterAcidity entry of
the Jacdac sensor map (minimum 2.5, maximum 10): a supported sensor whose
minimum is positive. -/
def waterAciditySensor : Sensor := mkSensor "JacdacWaterAcidity" "JDA" (2.5 : ℚ) 10

/-- A configured periodic (non-event) sensor used in the record-format
counterexample and witness. -/
def tempSensor : Sensor :=
  (mkSensor "Temp." "T" (-40) 100).setConfig (recordingConfig 2 1000 none none)

/-- A freshly constructed sensor on which `setConfig` was never called. -/
def rawSensor : Sensor := mkSensor "Temp." "T" (-40) 100

/-- A configured sensor whose measurement budget is already exhausted. -/
def exhaustedSensor : Sensor :=
  (mkSensor "Light" "L" 0 255).setConfig (recordingConfig 0 1000 none none)

/-- A sensor configured through `eventOnlyRecordingConfig` (measurements
and period undefined). -/
def eventOnlySensor : Sensor :=
  (mkSensor "Light" "L" 0 255).setConfig (eventOnlyRecordingConfig ">" 10)

/-- Scheduler over the single event-only sensor. -/
def eventOnlyScheduler : SensorScheduler := mkScheduler [eventOnlySensor]

/-- Witness sensor for shrinking: 50 buffered entries, capacity 80. -/
def fiftySensor : Sensor :=
  { mkSensor "Light" "L" 0 255 with
    dataBuffer := (List.range 50).map (fun i => (i : ℚ)),
    normalisedDataBuffer := (List.range 50).map (fun i => (i : ℚ)) }
/-- Characterization of Sensor.log for a configured sensor not in event
mode: one record is emitted, measurements are decremented
unconditionally. -/
lemma log_nonevent (s : Sensor) (cfg : RecordingConfig) (sample : ℚ)
    (time : Option Int) (millis : Int)
    (hc : s.config = some cfg) (he : s.isInEventMode = false) :
    s.log sample time millis =
      ⟨[[("Sensor", s.name), ("Time (ms)", jsIntToString (jsOptTime time millis)),
         ("Reading", (jsNumToString sample).take READING_PRECISION),
         ("Event", "N/A")]],
       .ok ({ s with
              lastLoggedReading := sample
              config := some { cfg with measurements := decMeas cfg.measurements } },
         s.radioName ++ "," ++ jsIntToString (jsOptTime time millis) ++ ","
           ++ (jsNumToString sample).take READING_PRECISION ++ "," ++ "N/A")⟩ := by
  unfold Sensor.log
  simp only [he, Bool.false_eq_true, if_false, hc]
/-- Characterization of Sensor.log for an unconfigured sensor (which is
never in event mode): the non-event branch emits its record to the sink
and then fails on the undefined config access. -/
lemma log_unconfigured (s : Sensor) (sample : ℚ) (time : Option Int) (millis : Int)
    (hc : s.config = none) (he : s.isInEventMode = false) :
    s.log sample time millis =
      ⟨[[("Sensor", s.name), ("Time (ms)", jsIntToString (jsOptTime time millis)),
         ("Reading", (jsNumToString sample).take READING_PRECISION),
         ("Event", "N/A")]],
       .error "TypeError: config is undefined"⟩ := by
  unfold Sensor.log
  simp only [he, Bool.false_eq_true, if_false, hc]

/-- Characterization of Sensor.log for a configured sensor in event mode,
by cases on the predicate lookup and its outcome: an unknown inequality
fails; a firing predicate emits one record, decrements the measurements
and returns the CSV row; a non-firing predicate emits nothing, changes no
config field and returns the empty string. -/
lemma log_event_cases (s : Sensor) (cfg : RecordingConfig) (sample : ℚ)
    (time : Option Int) (millis : Int)
    (hc : s.config = some cfg) (he : s.isInEventMode = true) :
    (sensorEventFunctionLookup (cfg.inequality.getD "undefined") = none ∧
      s.log sample time millis =
        ⟨[], .error "TypeError: lookup result is not a function"⟩) ∨
    (∃ f, sensorEventFunctionLookup (cfg.inequality.getD "undefined") = some f ∧
      ((f sample (cfg.comparator.getD 0) = true ∧
        s.log sample time millis =
          ⟨[[("Sensor", s.name), ("Time (ms)", jsIntToString (jsOptTime time millis)),
             ("Reading", (jsNumToString sample).take READING_PRECISION),
             ("Event", cfg.inequality.getD "undefined" ++ " "
               ++ jsOptNumToString cfg.comparator)]],
           .ok ({ s with
                  lastLoggedReading := sample
                  config := some { cfg with measurements := decMeas cfg.measurements } },
             s.radioName ++ "," ++ jsIntToString (jsOptTime time millis) ++ ","
               ++ (jsNumToString sample).take READING_PRECISION ++ ","
               ++ (cfg.inequality.getD "undefined" ++ " "
                 ++ jsOptNumToString cfg.comparator))⟩) ∨
       (f sample (cfg.comparator.getD 0) = false ∧
        s.log sample time millis =
          ⟨[], .ok ({ s with lastLoggedReading := sample }, "")⟩))) := by
  unfold Sensor.log
  simp only [he, if_true, hc]
  cases hlook : sensorEventFunctionLookup (cfg.inequality.getD "undefined") with
  | none => exact Or.inl ⟨rfl, rfl⟩
  | some f =>
    refine Or.inr ⟨f, rfl, ?_⟩
    cases hfire : f sample (cfg.comparator.getD 0) with
    | true => exact Or.inl ⟨rfl, by simp [hfire]⟩
    | false => exact Or.inr ⟨rfl, by simp [hfire]⟩
/-- Claim C10: `log()` never checks the remaining measurement budget: for
every configured sensor not in event mode, a call produces a record
(exactly one sink record and a CSV string) and decrements
`config.measurements` by one unconditionally, so a budget of `some m`
becomes `some (m - 1)` even when `m` is already 0 or negative. -/
theorem log_no_budget_check_c10 (s : Sensor) (cfg : RecordingConfig) (sample : ℚ)
    (time : Option Int) (millis : Int)
    (hc : s.config = some cfg) (he : s.isInEventMode = false) :
    (s.log sample time millis).sink.length = 1 ∧
    (s.log sample time millis).out =
      .ok ({ s with
             lastLoggedReading := sample
             config := some { cfg with measurements := decMeas cfg.measurements } },
        s.radioName ++ "," ++ jsIntToString (jsOptTime time millis) ++ ","
          ++ (jsNumToString sample).take READING_PRECISION ++ "," ++ "N/A") ∧
    (∀ m : Int, cfg.measurements = some m → decMeas cfg.measurements = some (m - 1)) := by
  rw [log_nonevent s cfg sample time millis hc he]
  refine ⟨rfl, rfl, ?_⟩
  intro m hm
  rw [hm]
  rfl

/-- Witness for C10 at a sensor whose measurement budget is already 0:
the call still logs and the budget becomes -1. -/
theorem log_no_budget_check_c10_witness :
    exhaustedSensor.config = some (recordingConfig 0 1000 none none) ∧
    ((exhaustedSensor.log 5 (some 100) 7).sink.length = 1 ∧
     (exhaustedSensor.log 5 (some 100) 7).out =
       .ok ({ exhaustedSensor with
              lastLoggedReading := 5
              config := some (recordingConfig (-1) 1000 none none) },
         "L,100,5,N/A") ∧
     (∀ m : Int, (recordingConfig 0 1000 none none).measurements = some m →
        decMeas (recordingConfig 0 1000 none none).measurements = some (m - 1))) :=
  ⟨rfl, log_no_budget_check_c10 exhaustedSensor (recordingConfig 0 1000 none none)
    5 (some 100) 7 rfl rfl⟩

/-- Claim C7 (amended): calling `hasMeasurements()` or `log()` on a sensor
on which `setConfig` was never called fails with a runtime
undefined-config error; `hasMeasurements` fails before producing a
boolean and `log` returns no string, but `log` (not in event mode by
default) emits one record to the datalogger sink before the failure. -/
theorem unconfigured_failure_c7 (s : Sensor) (sample : ℚ) (time : Option Int)
    (millis : Int) (hc : s.config = none) (he : s.isInEventMode = false) :
    s.hasMeasurementsE = .error "TypeError: config is undefined" ∧
    (s.log sample time millis).out = .error "TypeError: config is undefined" ∧
    (s.log sample time millis).sink.length = 1 := by
  rw [log_unconfigured s sample time millis hc he]
  refine ⟨?_, rfl, rfl⟩
  simp [Sensor.hasMeasurementsE, hc]

/-- Witness for C7 at a freshly constructed, never configured sensor. -/
theorem unconfigured_failure_c7_witness :
    rawSensor.config = none ∧
    (rawSensor.hasMeasurementsE = .error "TypeError: config is undefined" ∧
     (rawSensor.log 5 (some 100) 3).out = .error "TypeError: config is undefined" ∧
     (rawSensor.log 5 (some 100) 3).sink.length = 1) :=
  ⟨rfl, unconfigured_failure_c7 rawSensor 5 (some 100) 3 rfl rfl⟩

/-- Counterexample for C7 as stated: `log()` on an unconfigured sensor
emits a full record to the datalogger sink before the failure
propagates, so the failure does not preempt producing a record. -/
theorem unconfigured_log_sink_cex_c7 :
    (rawSensor.log 5 (some 100) 3).out = .error "TypeError: config is undefined" ∧
    (rawSensor.log 5 (some 100) 3).sink =
      [[("Sensor", "Temp."), ("Time (ms)", "100"), ("Reading", "5"),
        ("Event", "N/A")]] ∧
    rawSensor.hasMeasurementsE = .error "TypeError: config is undefined" :=
  ⟨rfl, rfl, rfl⟩
/-- Claim C2: every `log()` call on a configured sensor that produces a
record decrements `config.measurements` exactly once (and changes no
other config field), and a call that emits no record (event mode,
predicate did not fire) leaves the config unchanged and returns the
empty string. In the claimed scenario (inequality ">", comparator 10,
measurements 1; samples 5 then 15) the first call returns "" leaving
measurements at 1 and the second logs and decrements to 0. -/
theorem log_decrement_c2 :
    (∀ (s : Sensor) (cfg : RecordingConfig) (sample : ℚ) (time : Option Int)
        (millis : Int) (s' : Sensor) (csv : String),
      s.config = some cfg →
      (s.log sample time millis).out = .ok (s', csv) →
      ((s.log sample time millis).sink = [] → s'.config = some cfg ∧ csv = "") ∧
      ((s.log sample time millis).sink ≠ [] →
        s'.config = some { cfg with measurements := decMeas cfg.measurements })) ∧
    (eventSensorC2.log 5 (some 100) 7).out = .ok (eventSensorC2a, "") ∧
    eventSensorC2a.config = some (recordingConfig 1 1000 (some ">") (some 10)) ∧
    (eventSensorC2a.log 15 (some 200) 7).out =
      .ok ({ eventSensorC2a with
             lastLoggedReading := 15
             config := some (recordingConfig 0 1000 (some ">") (some 10)) },
        "L,200,15,> 10") := by
  refine ⟨?_, rfl, rfl, rfl⟩
  intro s cfg sample time millis s' csv hc hout
  by_cases he : s.isInEventMode
  · rcases log_event_cases s cfg sample time millis hc he with
      ⟨_, heq⟩ | ⟨f, _, ⟨_, heq⟩ | ⟨_, heq⟩⟩
    · rw [heq] at hout
      exact absurd hout (by simp)
    · rw [heq] at hout ⊢
      simp only [Except.ok.injEq, Prod.mk.injEq] at hout
      obtain ⟨h1, h2⟩ := hout
      subst h1
      constructor
      · intro hsink
        exact absurd hsink (by simp)
      · intro _
        rfl
    · rw [heq] at hout ⊢
      simp only [Except.ok.injEq, Prod.mk.injEq] at hout
      obtain ⟨h1, h2⟩ := hout
      subst h1 h2
      constructor
      · intro _
        exact ⟨hc, rfl⟩
      · intro hsink
        exact absurd rfl hsink
  · rw [log_nonevent s cfg sample time millis hc (by simpa using he)] at hout ⊢
    simp only [Except.ok.injEq, Prod.mk.injEq] at hout
    obtain ⟨h1, h2⟩ := hout
    subst h1
    constructor
    · intro hsink
      exact absurd hsink (by simp)
    · intro _
      rfl

/-- Witness for C2 at the second scenario call (sample 15 fires). -/
theorem log_decrement_c2_witness :
    eventSensorC2a.config = some (recordingConfig 1 1000 (some ">") (some 10)) ∧
    (eventSensorC2a.log 15 (some 200) 7).out =
      .ok ({ eventSensorC2a with
             lastLoggedReading := 15
             config := some (recordingConfig 0 1000 (some ">") (some 10)) },
        "L,200,15,> 10") ∧
    (((eventSensorC2a.log 15 (some 200) 7).sink = [] →
        ({ eventSensorC2a with
           lastLoggedReading := 15
           config := some (recordingConfig 0 1000 (some ">") (some 10)) } :
          Sensor).config = some (recordingConfig 1 1000 (some ">") (some 10)) ∧
        "L,200,15,> 10" = "") ∧
     ((eventSensorC2a.log 15 (some 200) 7).sink ≠ [] →
       ({ eventSensorC2a with
          lastLoggedReading := 15
          config := some (recordingConfig 0 1000 (some ">") (some 10)) } :
         Sensor).config =
         some { recordingConfig 1 1000 (some ">") (some 10) with
                measurements :=
                  decMeas (recordingConfig 1 1000 (some ">") (some 10)).measurements })) :=
  ⟨rfl, rfl,
    log_decrement_c2.1 eventSensorC2a (recordingConfig 1 1000 (some ">") (some 10))
      15 (some 200) 7 _ "L,200,15,> 10" rfl rfl⟩
/-- Claim C6 (amended): for every configured sensor producing a record and
every nonzero time `t`, `log(t)` returns the comma-joined string
`radioName,t,reading,eventDescriptionOrNA`, where `reading` is the
sample rendered and truncated to `READING_PRECISION = 8` characters,
the identical truncated string is placed in the sink record, and the
event field is the inequality-and-comparator pair in event mode and
"N/A" otherwise. (For `t = 0` the wall clock is substituted, see the
counterexample.) -/
theorem log_record_format_c6 (s : Sensor) (cfg : RecordingConfig) (sample : ℚ)
    (t millis : Int) (s' : Sensor) (csv : String)
    (hc : s.config = some cfg) (ht : t ≠ 0)
    (hout : (s.log sample (some t) millis).out = .ok (s', csv))
    (hsink : (s.log sample (some t) millis).sink ≠ []) :
    READING_PRECISION = 8 ∧
    csv = s.radioName ++ "," ++ jsIntToString t ++ ","
        ++ (jsNumToString sample).take READING_PRECISION ++ ","
        ++ (if s.isInEventMode then
              cfg.inequality.getD "undefined" ++ " " ++ jsOptNumToString cfg.comparator
            else "N/A") ∧
    (s.log sample (some t) millis).sink =
      [[("Sensor", s.name), ("Time (ms)", jsIntToString t),
        ("Reading", (jsNumToString sample).take READING_PRECISION),
        ("Event", if s.isInEventMode then
              cfg.inequality.getD "undefined" ++ " " ++ jsOptNumToString cfg.comparator
            else "N/A")]] := by
  have htt : jsOptTime (some t) millis = t := by simp [jsOptTime, ht]
  by_cases he : s.isInEventMode
  · rcases log_event_cases s cfg sample (some t) millis hc he with
      ⟨_, heq⟩ | ⟨f, _, ⟨_, heq⟩ | ⟨_, heq⟩⟩
    · rw [heq] at hsink
      exact absurd rfl hsink
    · rw [heq] at hout ⊢
      simp only [Except.ok.injEq, Prod.mk.injEq] at hout
      obtain ⟨h1, h2⟩ := hout
      subst h2
      rw [htt, if_pos he]
      exact ⟨rfl, rfl, rfl⟩
    · rw [heq] at hsink
      exact absurd rfl hsink
  · have he' : s.isInEventMode = false := by simpa using he
    rw [log_nonevent s cfg sample (some t) millis hc he'] at hout ⊢
    simp only [Except.ok.injEq, Prod.mk.injEq] at hout
    obtain ⟨h1, h2⟩ := hout
    subst h2
    rw [htt, if_neg he]
    exact ⟨rfl, rfl, rfl⟩

/-- Witness for C6 at an event-mode sensor that fires at time 200. -/
theorem log_record_format_c6_witness :
    eventSensorC2a.config = some (recordingConfig 1 1000 (some ">") (some 10)) ∧
    (200 : Int) ≠ 0 ∧
    (READING_PRECISION = 8 ∧
     "L,200,15,> 10" = eventSensorC2a.radioName ++ "," ++ jsIntToString 200 ++ ","
        ++ (jsNumToString 15).take READING_PRECISION ++ ","
        ++ (if eventSensorC2a.isInEventMode then
              (recordingConfig 1 1000 (some ">") (some 10)).inequality.getD "undefined"
                ++ " "
                ++ jsOptNumToString (recordingConfig 1 1000 (some ">") (some 10)).comparator
            else "N/A") ∧
     (eventSensorC2a.log 15 (some 200) 7).sink =
       [[("Sensor", eventSensorC2a.name), ("Time (ms)", jsIntToString 200),
         ("Reading", (jsNumToString 15).take READING_PRECISION),
         ("Event", if eventSensorC2a.isInEventMode then
              (recordingConfig 1 1000 (some ">") (some 10)).inequality.getD "undefined"
                ++ " "
                ++ jsOptNumToString (recordingConfig 1 1000 (some ">") (some 10)).comparator
            else "N/A")]]) :=
  ⟨rfl, by decide,
    log_record_format_c6 eventSensorC2a (recordingConfig 1 1000 (some ">") (some 10))
      15 200 7 _ "L,200,15,> 10" rfl (by decide) rfl (by decide)⟩

/-- Counterexample for C6 as stated: `log(0)` substitutes the wall clock
(12345) for the passed time 0 in the returned record, so the record is
not `radioName,0,reading,event`. -/
theorem log_time_zero_cex_c6 :
    ((tempSensor.log 7 (some 0) 12345).out).map Prod.snd = .ok "T,12345,7,N/A" ∧
    "T,12345,7,N/A" ≠ "T,0,7,N/A" :=
  ⟨rfl, by decide⟩
/-- Each single buffer operation preserves equality of the raw and
normalised buffer lengths. -/
lemma applyBufferOp_inv (s : Sensor) (op : BufferOp)
    (hinv : s.dataBuffer.length = s.normalisedDataBuffer.length) :
    (applyBufferOp s op).dataBuffer.length =
      (applyBufferOp s op).normalisedDataBuffer.length := by
  cases op with
  | read sample =>
    cases sample with
    | none =>
      dsimp only [applyBufferOp, Sensor.readIntoBufferOnce]
      split
      · simp only [List.length_tail]
        omega
      · exact hinv
    | some r =>
      dsimp only [applyBufferOp, Sensor.readIntoBufferOnce]
      split
      · simp only [List.length_append, List.length_tail, List.length_singleton]
        omega
      · simp only [List.length_append, List.length_singleton]
        omega
  | resize n =>
    dsimp only [applyBufferOp, Sensor.setBufferSize]
    split
    · simp only [List.length_drop]
      omega
    · exact hinv
  | renormalise =>
    dsimp only [applyBufferOp, Sensor.normaliseDataBuffer]
    simp only [List.length_map]

/-- Claim C3: for every sequence of `readIntoBufferOnce`, `setBufferSize`
and `normaliseDataBuffer` calls from a state where the raw and
normalised buffers have equal length (as every freshly constructed
sensor does), `dataBuffer.length = normalisedDataBuffer.length` holds
after every call. -/
theorem buffer_length_invariant_c3 (s : Sensor) (ops : List BufferOp)
    (hinv : s.dataBuffer.length = s.normalisedDataBuffer.length) :
    (applyBufferOps s ops).dataBuffer.length =
      (applyBufferOps s ops).normalisedDataBuffer.length := by
  induction ops generalizing s with
  | nil => simpa [applyBufferOps] using hinv
  | cons op ops ih =>
    simp only [applyBufferOps, List.foldl_cons]
    exact ih (applyBufferOp s op) (applyBufferOp_inv s op hinv)

/-- Witness for C3: a fresh sensor run through a mixed operation
sequence. -/
theorem buffer_length_invariant_c3_witness :
    (mkSensor "Light" "L" 0 255).dataBuffer.length =
      (mkSensor "Light" "L" 0 255).normalisedDataBuffer.length ∧
    (applyBufferOps (mkSensor "Light" "L" 0 255)
        [.read (some 5), .resize 1, .read none, .renormalise,
         .read (some 3)]).dataBuffer.length =
      (applyBufferOps (mkSensor "Light" "L" 0 255)
        [.read (some 5), .resize 1, .read none, .renormalise,
         .read (some 3)]).normalisedDataBuffer.length :=
  ⟨rfl, buffer_length_invariant_c3 (mkSensor "Light" "L" 0 255) _ rfl⟩
/-- Counterexample for C4 as stated: after `setBufferSize(0)` a
`readIntoBufferOnce` call with a present sample leaves the buffer at
length 1, exceeding `maxBufferSize = 0`, so the unconditional capacity
clause of the claim is false. -/
theorem buffer_capacity_cex_c4 :
    (zeroCapSensor.readIntoBufferOnce (some 1)).1.dataBuffer.length = 1 ∧
    (zeroCapSensor.readIntoBufferOnce (some 1)).1.maxBufferSize = 0 ∧
    ¬ ((zeroCapSensor.readIntoBufferOnce (some 1)).1.dataBuffer.length ≤
        (zeroCapSensor.readIntoBufferOnce (some 1)).1.maxBufferSize) := by
  refine ⟨rfl, rfl, ?_⟩
  decide

/-- Claim C4 (amended): `readIntoBufferOnce` consumes one sample; the
oldest entry (the head) of both buffers is evicted exactly when the
buffer is at capacity or the sample is absent; an absent sample is
never appended and does not increment `numberOfReadings`; a present
sample is appended to both buffers and increments `numberOfReadings`;
the call returns the resulting buffer length; and the length stays
within `maxBufferSize` provided the capacity is at least 1 and the
buffer was within capacity before the call. -/
theorem readIntoBufferOnce_spec_c4 (s : Sensor) (sample : Option ℚ) :
    ((s.readIntoBufferOnce sample).2 = (s.readIntoBufferOnce sample).1.dataBuffer.length) ∧
    (sample = none →
      (s.readIntoBufferOnce sample).1.dataBuffer = s.dataBuffer.tail ∧
      (s.readIntoBufferOnce sample).1.normalisedDataBuffer = s.normalisedDataBuffer.tail ∧
      (s.readIntoBufferOnce sample).1.numberOfReadings = s.numberOfReadings) ∧
    (∀ r : ℚ, sample = some r →
      (s.readIntoBufferOnce sample).1.numberOfReadings = s.numberOfReadings + 1 ∧
      (s.maxBufferSize ≤ s.dataBuffer.length →
        (s.readIntoBufferOnce sample).1.dataBuffer = s.dataBuffer.tail ++ [r] ∧
        (s.readIntoBufferOnce sample).1.normalisedDataBuffer =
          s.normalisedDataBuffer.tail ++ [(r - s.minimum) / s.range]) ∧
      (s.dataBuffer.length < s.maxBufferSize →
        (s.readIntoBufferOnce sample).1.dataBuffer = s.dataBuffer ++ [r] ∧
        (s.readIntoBufferOnce sample).1.normalisedDataBuffer =
          s.normalisedDataBuffer ++ [(r - s.minimum) / s.range])) ∧
    (1 ≤ s.maxBufferSize → s.dataBuffer.length ≤ s.maxBufferSize →
      (s.readIntoBufferOnce sample).1.dataBuffer.length ≤ s.maxBufferSize) := by
  cases sample with
  | none =>
    dsimp only [Sensor.readIntoBufferOnce]
    rw [if_pos (Or.inr rfl)]
    refine ⟨rfl, fun _ => ⟨rfl, rfl, rfl⟩, ?_, ?_⟩
    · intro r hr
      exact Option.noConfusion hr
    · intro h1 h2
      simp only [List.length_tail]
      omega
  | some r =>
    by_cases hcap : s.dataBuffer.length ≥ s.maxBufferSize
    · dsimp only [Sensor.readIntoBufferOnce]
      rw [if_pos (Or.inl hcap)]
      refine ⟨rfl, ?_, ?_, ?_⟩
      · intro h
        exact Option.noConfusion h
      · intro r' hr'
        obtain rfl : r = r' := Option.some.inj hr'
        exact ⟨rfl, fun _ => ⟨rfl, rfl⟩, fun hlt => absurd hlt (by omega)⟩
      · intro h1 h2
        simp only [List.length_append, List.length_tail, List.length_singleton]
        omega
    · dsimp only [Sensor.readIntoBufferOnce]
      rw [if_neg (by simp [hcap])]
      refine ⟨rfl, ?_, ?_, ?_⟩
      · intro h
        exact Option.noConfusion h
      · intro r' hr'
        obtain rfl : r = r' := Option.some.inj hr'
        exact ⟨rfl, fun hle => absurd hle hcap, fun _ => ⟨rfl, rfl⟩⟩
      · intro h1 h2
        simp only [List.length_append, List.length_singleton]
        omega

/-- Witness for C4 at a sensor at capacity receiving a present sample. -/
theorem readIntoBufferOnce_spec_c4_witness :
    (((bufferedSensor.readIntoBufferOnce (some 3)).2 =
        (bufferedSensor.readIntoBufferOnce (some 3)).1.dataBuffer.length) ∧
     ((some (3 : ℚ)) = none →
       (bufferedSensor.readIntoBufferOnce (some 3)).1.dataBuffer =
         bufferedSensor.dataBuffer.tail ∧
       (bufferedSensor.readIntoBufferOnce (some 3)).1.normalisedDataBuffer =
         bufferedSensor.normalisedDataBuffer.tail ∧
       (bufferedSensor.readIntoBufferOnce (some 3)).1.numberOfReadings =
         bufferedSensor.numberOfReadings) ∧
     (∀ r : ℚ, (some (3 : ℚ)) = some r →
       (bufferedSensor.readIntoBufferOnce (some 3)).1.numberOfReadings =
         bufferedSensor.numberOfReadings + 1 ∧
       (bufferedSensor.maxBufferSize ≤ bufferedSensor.dataBuffer.length →
         (bufferedSensor.readIntoBufferOnce (some 3)).1.dataBuffer =
           bufferedSensor.dataBuffer.tail ++ [r] ∧
         (bufferedSensor.readIntoBufferOnce (some 3)).1.normalisedDataBuffer =
           bufferedSensor.normalisedDataBuffer.tail
             ++ [(r - bufferedSensor.minimum) / bufferedSensor.range]) ∧
       (bufferedSensor.dataBuffer.length < bufferedSensor.maxBufferSize →
         (bufferedSensor.readIntoBufferOnce (some 3)).1.dataBuffer =
           bufferedSensor.dataBuffer ++ [r] ∧
         (bufferedSensor.readIntoBufferOnce (some 3)).1.normalisedDataBuffer =
           bufferedSensor.normalisedDataBuffer
             ++ [(r - bufferedSensor.minimum) / bufferedSensor.range])) ∧
     (1 ≤ bufferedSensor.maxBufferSize →
       bufferedSensor.dataBuffer.length ≤ bufferedSensor.maxBufferSize →
       (bufferedSensor.readIntoBufferOnce (some 3)).1.dataBuffer.length ≤
         bufferedSensor.maxBufferSize)) :=
  readIntoBufferOnce_spec_c4 bufferedSensor (some 3)

/-- Claim C8: `setBufferSize(n)` with `n` smaller than the current buffer
length drops the oldest `length - n` entries from both buffers,
retaining exactly the `n` most recently inserted entries in their
original order, and with `n` at least the current length it leaves both
buffers unchanged; in both cases the capacity becomes `n`. -/
theorem setBufferSize_c8 (s : Sensor) (n : Nat)
    (hinv : s.dataBuffer.length = s.normalisedDataBuffer.length) :
    ((s.setBufferSize n).maxBufferSize = n) ∧
    (n < s.dataBuffer.length →
      (s.setBufferSize n).dataBuffer =
        s.dataBuffer.drop (s.dataBuffer.length - n) ∧
      (s.setBufferSize n).normalisedDataBuffer =
        s.normalisedDataBuffer.drop (s.normalisedDataBuffer.length - n) ∧
      (s.setBufferSize n).dataBuffer.length = n) ∧
    (s.dataBuffer.length ≤ n →
      (s.setBufferSize n).dataBuffer = s.dataBuffer ∧
      (s.setBufferSize n).normalisedDataBuffer = s.normalisedDataBuffer) := by
  by_cases h : s.dataBuffer.length > n
  · dsimp only [Sensor.setBufferSize]
    rw [if_pos h]
    refine ⟨rfl, fun _ => ⟨rfl, by rw [hinv], ?_⟩, fun hle => absurd h (by omega)⟩
    simp only [List.length_drop]
    omega
  · dsimp only [Sensor.setBufferSize]
    rw [if_neg h]
    exact ⟨rfl, fun hlt => absurd hlt (by omega), fun _ => ⟨rfl, rfl⟩⟩

/-- Witness for C8: shrinking a 50-entry buffer to capacity 10. -/
theorem setBufferSize_c8_witness :
    fiftySensor.dataBuffer.length = fiftySensor.normalisedDataBuffer.length ∧
    (((fiftySensor.setBufferSize 10).maxBufferSize = 10) ∧
     (10 < fiftySensor.dataBuffer.length →
       (fiftySensor.setBufferSize 10).dataBuffer =
         fiftySensor.dataBuffer.drop (fiftySensor.dataBuffer.length - 10) ∧
       (fiftySensor.setBufferSize 10).normalisedDataBuffer =
         fiftySensor.normalisedDataBuffer.drop
           (fiftySensor.normalisedDataBuffer.length - 10) ∧
       (fiftySensor.setBufferSize 10).dataBuffer.length = 10) ∧
     (fiftySensor.dataBuffer.length ≤ 10 →
       (fiftySensor.setBufferSize 10).dataBuffer = fiftySensor.dataBuffer ∧
       (fiftySensor.setBufferSize 10).normalisedDataBuffer =
         fiftySensor.normalisedDataBuffer)) :=
  ⟨by simp [fiftySensor], setBufferSize_c8 fiftySensor 10 (by simp [fiftySensor])⟩
/-- Claim C5 (code bug): `normaliseDataBuffer` divides by
`abs(minimum) + maximum` instead of `maximum - minimum`. For the
JacdacWaterAcidity bounds (minimum 2.5, maximum 10) and raw buffer [5],
`readIntoBufferOnce` stores (5 - 2.5)/(10 - 2.5) = 1/3 — the
`normalisedReading` formula — but `normaliseDataBuffer` recomputes the
same entry as (5 - 2.5)/(2.5 + 10) = 1/5 ≠ 1/3. -/
theorem normaliseDataBuffer_bug_c5 :
    ((waterAciditySensor.readIntoBufferOnce (some 5)).1.normalisedDataBuffer =
      [(5 - waterAciditySensor.minimum) /
        (waterAciditySensor.maximum - waterAciditySensor.minimum)]) ∧
    ((waterAciditySensor.readIntoBufferOnce
        (some 5)).1.normaliseDataBuffer.normalisedDataBuffer = [1/5]) ∧
    ((5 - waterAciditySensor.minimum) /
      (waterAciditySensor.maximum - waterAciditySensor.minimum) = 1/3) ∧
    ((waterAciditySensor.readIntoBufferOnce
        (some 5)).1.normaliseDataBuffer.normalisedDataBuffer ≠
      [(5 - waterAciditySensor.minimum) /
        (waterAciditySensor.maximum - waterAciditySensor.minimum)]) := by
  refine ⟨?_, ?_, ?_, ?_⟩ <;>
    norm_num [waterAciditySensor, mkSensor, Sensor.readIntoBufferOnce,
      Sensor.normaliseDataBuffer, abs_of_pos]

/-- Claim C9: a sensor configured via `eventOnlyRecordingConfig` (which
sets measurements and period to the absent value) has
`hasMeasurements() = false` immediately after `setConfig`, so the
scheduler removes it from the schedule right after the time-0 logging
pass (even when its predicate fired and a record was produced) and then
reports logging complete. -/
theorem eventOnly_complete_c9 :
    (∀ (s : Sensor) (ineq : String) (comp : ℚ),
        (s.setConfig (eventOnlyRecordingConfig ineq comp)).hasMeasurementsE =
          .ok false) ∧
    initialPassAux 15 999 [] eventOnlyScheduler.schedule [] =
      .ok ([], [⟨"L", 0, "L,999,15,> 10"⟩]) ∧
    startSim 15 999 5 eventOnlyScheduler =
      .ok ⟨[], 0, [⟨"L", 0, "L,999,15,> 10"⟩]⟩ ∧
    SensorScheduler.loggingComplete ⟨[]⟩ = true :=
  ⟨fun _ _ _ => rfl, rfl, rfl, rfl⟩
/-- The round-trip run is the loop applied to the post-time-0 state. -/
lemma rtRunLoop (fuel : Nat) :
    roundTripRun fuel = schedLoopAux 1 999 fuel rtSched1 0 rtTrace1 := rfl

/-- Loop iteration at logical time 1000: A is logged, B is not. -/
lemma rtStep1 (fuel : Nat) :
    schedLoopAux 1 999 (fuel + 1) rtSched1 0 rtTrace1 =
      schedLoopAux 1 999 fuel rtSched2 1000 rtTrace2 := rfl

/-- Loop iteration at logical time 2000: both sensors are logged and
exhausted. -/
lemma rtStep2 (fuel : Nat) :
    schedLoopAux 1 999 (fuel + 1) rtSched2 1000 rtTrace2 =
      schedLoopAux 1 999 fuel rtSched3 2000 rtTrace3 := rfl

/-- Third loop iteration: A's entry is spliced out (B's entry shifts into
its index and is skipped this iteration). -/
lemma rtStep3 (fuel : Nat) :
    schedLoopAux 1 999 (fuel + 1) rtSched3 2000 rtTrace3 =
      schedLoopAux 1 999 fuel rtSched4 2000 rtTrace3 := rfl

/-- Fourth loop iteration: B's entry is spliced out; the schedule empties. -/
lemma rtStep4 (fuel : Nat) :
    schedLoopAux 1 999 (fuel + 1) rtSched4 2000 rtTrace3 =
      schedLoopAux 1 999 fuel [] 2000 rtTrace3 := rfl

/-- The loop with no fuel left returns the current state. -/
lemma rtLoopZero (sched : List SchedEntry) (ct : Int) (tr : List LogEvent) :
    schedLoopAux 1 999 0 sched ct tr = .ok ⟨sched, ct, tr⟩ := rfl

/-- The loop on an empty schedule terminates immediately. -/
lemma rtLoopNil (fuel : Nat) (ct : Int) (tr : List LogEvent) :
    schedLoopAux 1 999 fuel [] ct tr = .ok ⟨[], ct, tr⟩ := by
  cases fuel <;> rfl

/-- Round-trip run after 0 loop iterations. -/
lemma rtRun0 : roundTripRun 0 = .ok ⟨rtSched1, 0, rtTrace1⟩ := rfl

/-- Round-trip run after 1 loop iteration. -/
lemma rtRun1 : roundTripRun 1 = .ok ⟨rtSched2, 1000, rtTrace2⟩ := by
  rw [rtRunLoop, show (1 : Nat) = 0 + 1 from rfl, rtStep1, rtLoopZero]

/-- Round-trip run after 2 loop iterations. -/
lemma rtRun2 : roundTripRun 2 = .ok ⟨rtSched3, 2000, rtTrace3⟩ := by
  rw [rtRunLoop, show (2 : Nat) = 1 + 1 from rfl, rtStep1,
    show (1 : Nat) = 0 + 1 from rfl, rtStep2, rtLoopZero]

/-- Round-trip run after 3 loop iterations. -/
lemma rtRun3 : roundTripRun 3 = .ok ⟨rtSched4, 2000, rtTrace3⟩ := by
  rw [rtRunLoop, show (3 : Nat) = 2 + 1 from rfl, rtStep1,
    show (2 : Nat) = 1 + 1 from rfl, rtStep2,
    show (1 : Nat) = 0 + 1 from rfl, rtStep3, rtLoopZero]

/-- Round-trip run after 4 or more loop iterations: natural completion. -/
lemma rtRunPlus4 (fuel : Nat) :
    roundTripRun (fuel + 4) = .ok ⟨[], 2000, rtTrace3⟩ := by
  rw [rtRunLoop, show fuel + 4 = (fuel + 3) + 1 from rfl, rtStep1,
    show fuel + 3 = (fuel + 2) + 1 from rfl, rtStep2,
    show fuel + 2 = (fuel + 1) + 1 from rfl, rtStep3, rtStep4, rtLoopNil]

/-- Claim C1: for the scheduler over sensor A (period 1000 ms,
3 measurements) and sensor B (period 2000 ms, 2 measurements), running
`start()` to natural completion logs A exactly at logical times 0, 1000
and 2000 and B exactly at 0 and 2000 (the full trace `rtTrace3`, every
call producing a record); the time-0 pass logs each of the two
scheduled sensors exactly once; and at every point of the run
`loggingComplete()` is true only once A has been logged 3 times and B
2 times, i.e. only after both sensors exhausted their counts. -/
theorem scheduler_roundtrip_c1 :
    roundTripRun 10 = .ok ⟨[], 2000, rtTrace3⟩ ∧
    rtTrace3 = [⟨"A", 0, "A,999,1,N/A"⟩, ⟨"B", 0, "B,999,1,N/A"⟩,
                ⟨"A", 1000, "A,1000,1,N/A"⟩, ⟨"A", 2000, "A,2000,1,N/A"⟩,
                ⟨"B", 2000, "B,2000,1,N/A"⟩] ∧
    initialPassAux 1 999 [] roundTripScheduler.schedule [] =
      .ok (rtSched1, rtTrace1) ∧
    rtTrace1.map LogEvent.rName = [sensorA.radioName, sensorB.radioName] ∧
    (∀ k, k < 11 → ∀ st : SchedSimState, roundTripRun k = .ok st →
      SensorScheduler.loggingComplete ⟨st.schedule⟩ = true →
      st.trace.countP (fun ev => ev.rName == "A") = 3 ∧
      st.trace.countP (fun ev => ev.rName == "B") = 2) := by
  refine ⟨?_, by decide, rfl, by decide, ?_⟩
  · rw [show (10 : Nat) = 6 + 4 from rfl, rtRunPlus4]
  · intro k hk st hrun hcomp
    interval_cases k
    · rw [rtRun0] at hrun
      obtain rfl := Except.ok.inj hrun
      exact absurd hcomp (by decide)
    · rw [rtRun1] at hrun
      obtain rfl := Except.ok.inj hrun
      exact absurd hcomp (by decide)
    · rw [rtRun2] at hrun
      obtain rfl := Except.ok.inj hrun
      exact absurd hcomp (by decide)
    · rw [rtRun3] at hrun
      obtain rfl := Except.ok.inj hrun
      exact absurd hcomp (by decide)
    · rw [show (4 : Nat) = 0 + 4 from rfl, rtRunPlus4] at hrun
      obtain rfl := Except.ok.inj hrun
      exact ⟨by decide, by decide⟩
    · rw [show (5 : Nat) = 1 + 4 from rfl, rtRunPlus4] at hrun
      obtain rfl := Except.ok.inj hrun
      exact ⟨by decide, by decide⟩
    · rw [show (6 : Nat) = 2 + 4 from rfl, rtRunPlus4] at hrun
      obtain rfl := Except.ok.inj hrun
      exact ⟨by decide, by decide⟩
    · rw [show (7 : Nat) = 3 + 4 from rfl, rtRunPlus4] at hrun
      obtain rfl := Except.ok.inj hrun
      exact ⟨by decide, by decide⟩
    · rw [show (8 : Nat) = 4 + 4 from rfl, rtRunPlus4] at hrun
      obtain rfl := Except.ok.inj hrun
      exact ⟨by decide, by decide⟩
    · rw [show (9 : Nat) = 5 + 4 from rfl, rtRunPlus4] at hrun
      obtain rfl := Except.ok.inj hrun
      exact ⟨by decide, by decide⟩
    · rw [show (10 : Nat) = 6 + 4 from rfl, rtRunPlus4] at hrun
      obtain rfl := Except.ok.inj hrun
      exact ⟨by decide, by decide⟩

/-- Witness for C1: the completion property instantiated at the
5-iteration run. -/
theorem scheduler_roundtrip_c1_witness :
    (5 : Nat) < 11 ∧
    (SensorScheduler.loggingComplete ⟨(⟨[], 2000, rtTrace3⟩ : SchedSimState).schedule⟩ = true →
      (⟨[], 2000, rtTrace3⟩ : SchedSimState).trace.countP (fun ev => ev.rName == "A") = 3 ∧
      (⟨[], 2000, rtTrace3⟩ : SchedSimState).trace.countP (fun ev => ev.rName == "B") = 2) :=
  ⟨by decide, scheduler_roundtrip_c1.2.2.2.2 5 (by decide) ⟨[], 2000, rtTrace3⟩
    (by rw [show (5 : Nat) = 1 + 4 from rfl, rtRunPlus4])⟩
